import Mathlib

/-!
Verification development for the autonomous-research-agent repository.

The definitions below are a shallow embedding of the Python source:

* `src/scraper.py` — the six source adapters and the `DataScraper.scrape_all`
  aggregator (network and parse outcomes are passed in explicitly as
  `Except`-valued responses, so that the `try/except` control flow of each
  adapter can be modelled faithfully);
* `src/analyzer.py` — the deterministic fallback analysis and the backend
  dispatch of `ResearchAnalyzer.analyze`;
* `src/autonomous_agent/models/model_manager.py` — `select_best_model`;
* `src/memory.py` — `CacheManager.get` / `CacheManager.set` (the cache
  directory is modelled as an association list keyed by the cache key; the
  md5 file-name hashing is treated as injective);
* `src/phase3_advanced.py` — the `ResearchWorkflow` state machine, its
  transitions, checkpointing and the refine-or-complete decision.

Python `float` scores are modelled as rationals, Python `None`-able values as
`Option`, Python dictionaries with fixed literal keys as structures, and
Python exceptions as `Except String`.
-/

/-- Substring test: does `needle` occur inside `hay`?  Models the Python
`needle in hay` operator on strings. -/
def containsSub (hay needle : String) : Bool :=
  hay.toList.tails.any (fun t => needle.toList.isPrefixOf t)

/-! ## `src/scraper.py` — data model -/

/-- A parsed arXiv Atom entry (`src/scraper.py`, `ArxivScraper.search`).
The publication timestamp is modelled in whole days. -/
structure ArxivPaper where
  title : String
  summary : String
  authors : List String
  published : Int
  link : String
  categories : List String
deriving Repr, DecidableEq

/-- A GitHub repository item (`GitHubScraper.search_repositories`). -/
structure Repo where
  title : String
  description : String
  url : String
  stars : Nat
  language : String
  created_at : Int
deriving Repr, DecidableEq

/-- A raw HackerNews item as returned by the per-story endpoint. -/
structure HNItem where
  type : String
  title : String
  text : String
  url : Option String
  score : Nat
  time : Int
deriving Repr, DecidableEq

/-- A normalized HackerNews story (`HackerNewsScraper.get_top_stories`). -/
structure HNStory where
  title : String
  url : String
  score : Nat
  time : Int
deriving Repr, DecidableEq

/-- A raw Reddit post from the search listing (`RedditScraper.search`). -/
structure RedditPost where
  title : String
  permalink : String
  score : Int
  subreddit : String
  created_utc : Int
deriving Repr, DecidableEq

/-- A normalized Reddit discussion item. -/
structure RedditItem where
  title : String
  url : String
  score : Int
  subreddit : String
  created : Int
deriving Repr, DecidableEq

/-- A Dev.to article (`DevToScraper.search`). -/
structure DevToArticle where
  title : String
  description : String
  url : String
  published_at : Int
  tag_list : List String
deriving Repr, DecidableEq

/-- A raw RSS feed entry (`RSSFeedScraper.scrape`). -/
structure RSSEntry where
  title : String
  summary : String
  link : String
  published : String
deriving Repr, DecidableEq

/-- A normalized RSS item (summary truncated to 300 characters). -/
structure RSSItem where
  title : String
  summary : String
  url : String
  published : String
deriving Repr, DecidableEq

/-- A web-search result (`src/web_search.py` items, used by `scrape_all`).
Only the fields relevant to aggregation are modelled; dedup keys on `url`. -/
structure WebResult where
  title : String
  url : String
deriving Repr, DecidableEq

/-- One item of the mixed-shape `news` category of `scrape_all`. -/
inductive NewsItem where
  | hn (s : HNStory)
  | devto (a : DevToArticle)
  | rss (r : RSSItem)
deriving Repr, DecidableEq

/-! ## `src/scraper.py` — adapters

Each adapter's whole `try:` block (network round trip, HTTP status check and
body parsing) is modelled by an `Except String` response: `.error` stands for
any exception raised inside the block (5xx via `raise_for_status`, timeout,
malformed body), `.ok` carries the successfully parsed payload. -/

/-- `ArxivScraper._is_within_range`: time-window filter, days since epoch. -/
def ArxivScraper.is_within_range (date now : Int) (time_range : String) : Bool :=
  if time_range = "week" then decide (date > now - 7)
  else if time_range = "month" then decide (date > now - 30)
  else if time_range = "year" then decide (date > now - 365)
  else true

/-- `ArxivScraper.search`: on any exception, return `[]`; on success, keep
the parsed entries that fall within the time window. -/
def ArxivScraper.search (resp : Except String (List ArxivPaper)) (now : Int)
    (time_range : String) : List ArxivPaper :=
  match resp with
  | .error _ => []
  | .ok entries =>
    entries.filter (fun p => ArxivScraper.is_within_range p.published now time_range)

/-- `GitHubScraper.search_repositories`: on any exception, return `[]`; on
success, take at most `max_results` items (the `[:max_results]` slice). -/
def GitHubScraper.search_repositories (resp : Except String (List Repo))
    (max_results : Nat) : List Repo :=
  match resp with
  | .error _ => []
  | .ok items => items.take max_results

/-- Processing of a single HackerNews story fetch inside the loop of
`get_top_stories`: `none` models a non-ok story response (skipped), `some
none` a null item (skipped); a story item passes the type and query filters
before being normalized. -/
def HackerNewsScraper.process_story (query : String)
    (p : Nat × Option (Option HNItem)) : List HNStory :=
  match p.2 with
  | none => []
  | some none => []
  | some (some item) =>
    if item.type = "story" then
      if query = "" ∨
          containsSub (item.title.toLower ++ " " ++ item.text.toLower) query.toLower then
        [{ title := item.title,
           url := item.url.getD ("https://news.ycombinator.com/item?id=" ++ toString p.1),
           score := item.score,
           time := item.time }]
      else []
    else []

/-- `HackerNewsScraper.get_top_stories`: the response carries the top story
ids paired with each per-story fetch outcome; any exception anywhere in the
`try:` block (ids fetch or an in-loop request) yields `[]`. -/
def HackerNewsScraper.get_top_stories
    (resp : Except String (List (Nat × Option (Option HNItem))))
    (query : String) (max_results : Nat) : List HNStory :=
  match resp with
  | .error _ => []
  | .ok fetches =>
    ((fetches.take max_results).map (HackerNewsScraper.process_story query)).flatten

/-- `RedditScraper.search`: on any exception, return `[]`; on success,
normalize each listing child. -/
def RedditScraper.search (resp : Except String (List RedditPost)) : List RedditItem :=
  match resp with
  | .error _ => []
  | .ok posts =>
    posts.map (fun p =>
      { title := p.title,
        url := "https://reddit.com" ++ p.permalink,
        score := p.score,
        subreddit := p.subreddit,
        created := p.created_utc })

/-- `DevToScraper.search`: on any exception, return `[]`; on success, keep
articles matching the query and take at most `max_results`. -/
def DevToScraper.search (resp : Except String (List DevToArticle))
    (query : String) (max_results : Nat) : List DevToArticle :=
  match resp with
  | .error _ => []
  | .ok items =>
    (items.filter (fun a =>
      query = "" ∨ containsSub a.title.toLower query.toLower ∨
        containsSub a.description.toLower query.toLower)).take max_results

/-- One feed of `RSSFeedScraper.scrape`: a parse failure for the feed is
caught inside the per-feed loop (`continue`), so a failing feed contributes
no entries; a successful feed contributes its first 10 entries that match
the query, with the summary truncated to 300 characters. -/
def RSSFeedScraper.feed_items (query : String)
    (f : Except String (List RSSEntry)) : List RSSItem :=
  match f with
  | .error _ => []
  | .ok entries =>
    ((entries.take 10).filter (fun e =>
      query = "" ∨ containsSub e.title.toLower query.toLower ∨
        containsSub e.summary.toLower query.toLower)).map (fun e =>
      { title := e.title,
        summary := e.summary.take 300,
        url := e.link,
        published := e.published })

/-- `RSSFeedScraper.scrape`: iterate over the configured feeds, skipping
failing ones, and take at most `max_results` of the accumulated entries. -/
def RSSFeedScraper.scrape (feeds : List (Except String (List RSSEntry)))
    (query : String) (max_results : Nat) : List RSSItem :=
  ((feeds.map (RSSFeedScraper.feed_items query)).flatten).take max_results

/-! ## `src/scraper.py` — `DataScraper.scrape_all` -/

/-- The per-depth item budgets of `scrape_all` (the `limits` dictionary). -/
structure Limits where
  papers : Nat
  repos : Nat
  news : Nat
  web : Nat
deriving Repr, DecidableEq

/-- `limits.get(depth, limits['standard'])`. -/
def DataScraper.limits_for (depth : String) : Limits :=
  if depth = "quick" then ⟨20, 15, 10, 5⟩
  else if depth = "standard" then ⟨50, 30, 20, 15⟩
  else if depth = "deep" then ⟨100, 50, 40, 30⟩
  else ⟨50, 30, 20, 15⟩

/-- The optional web-search module (`self.web_search`).  Each search method
is modelled by its outcome on the arguments `scrape_all` passes to it;
`.error` again stands for a raised exception. -/
structure WebSearcher where
  search_tools : Except String (List WebResult)
  search_trends : Except String (List WebResult)
  search : Except String (List WebResult)
deriving Repr

/-- The environment of one `scrape_all` run: the outcome of every external
call the orchestrator can make. -/
structure ScrapeEnv where
  arxiv_resp : Except String (List ArxivPaper)
  github_resp : Except String (List Repo)
  hn_resp : Except String (List (Nat × Option (Option HNItem)))
  reddit_resp : Except String (List RedditPost)
  devto_resp : Except String (List DevToArticle)
  rss_feeds : List (Except String (List RSSEntry))
  web_search : Option WebSearcher
  now : Int
deriving Repr

/-- The categorized result dictionary of `scrape_all`. -/
structure ScrapeResults where
  papers : List ArxivPaper
  repositories : List Repo
  news : List NewsItem
  discussions : List RedditItem
  web_results : List WebResult
deriving Repr, DecidableEq

/-- The web-search dedup loop of `scrape_all` (`seen_urls` set, first
occurrence kept).  `seen` is the set of urls already encountered. -/
def DataScraper.dedupByUrl : List WebResult → List String → List WebResult
  | [], _ => []
  | it :: rest, seen =>
    if seen.contains it.url then DataScraper.dedupByUrl rest seen
    else it :: DataScraper.dedupByUrl rest (it.url :: seen)

/-- Web results contributed by the tools branch of `scrape_all`
(`web_search.search_tools`, truncated to `limit.web // 2`; a raised
exception is caught and contributes nothing). -/
def DataScraper.web_tools (env : ScrapeEnv) (focus depth : String) : List WebResult :=
  if focus = "tools" ∨ focus = "all" then
    match env.web_search with
    | none => []
    | some ws =>
      if depth = "standard" ∨ depth = "deep" then
        match ws.search_tools with
        | .error _ => []
        | .ok l => l.take ((DataScraper.limits_for depth).web / 2)
      else []
  else []

/-- Web results contributed by the trends branch of `scrape_all`
(`web_search.search_trends`, truncated to `limit.web // 2`). -/
def DataScraper.web_trends (env : ScrapeEnv) (focus depth : String) : List WebResult :=
  if focus = "trends" ∨ focus = "all" then
    match env.web_search with
    | none => []
    | some ws =>
      if depth = "standard" ∨ depth = "deep" then
        match ws.search_trends with
        | .error _ => []
        | .ok l => l.take ((DataScraper.limits_for depth).web / 2)
      else []
  else []

/-- The final `web_results` category: at depth `deep` with the web-search
module available, a successful general search extends the list and the
whole category is deduplicated by url; if the general search raises, the
exception is caught and the dedup pass is skipped. -/
def DataScraper.web_results (env : ScrapeEnv) (focus depth : String) : List WebResult :=
  let base := DataScraper.web_tools env focus depth ++ DataScraper.web_trends env focus depth
  match env.web_search with
  | none => base
  | some ws =>
    if depth = "deep" then
      match ws.search with
      | .error _ => base
      | .ok general => DataScraper.dedupByUrl (base ++ general) []
    else base

/-- `DataScraper.scrape_all`: fan out to the adapters selected by `focus`,
with per-category budgets from `depth`. -/
def DataScraper.scrape_all (env : ScrapeEnv) (query focus time_range depth : String) :
    ScrapeResults :=
  let limit := DataScraper.limits_for depth
  { papers :=
      if focus = "papers" ∨ focus = "all" then
        ArxivScraper.search env.arxiv_resp env.now time_range
      else [],
    repositories :=
      if focus = "tools" ∨ focus = "all" then
        GitHubScraper.search_repositories env.github_resp limit.repos
      else [],
    news :=
      if focus = "trends" ∨ focus = "all" then
        (HackerNewsScraper.get_top_stories env.hn_resp query (limit.news / 3)).map NewsItem.hn
        ++ (DevToScraper.search env.devto_resp query (limit.news / 3)).map NewsItem.devto
        ++ (RSSFeedScraper.scrape env.rss_feeds query (limit.news / 3)).map NewsItem.rss
      else [],
    discussions :=
      if focus = "trends" ∨ focus = "all" then
        RedditScraper.search env.reddit_resp
      else [],
    web_results := DataScraper.web_results env focus depth }

/-! ## `src/analyzer.py` -/

/-- The structured analysis dictionary produced by the analyzers. -/
structure Analysis where
  key_findings : List String
  trends : String
  notable_items : List String
  recommendations : List String
  summary : String
deriving Repr, DecidableEq

/-- `GroqAnalyzer._get_top_items`: the first paper, and the repository with
the most stars (Python `max` keeps the first maximum). -/
def GroqAnalyzer.get_top_items (data : ScrapeResults) : List String :=
  (match data.papers with
   | [] => []
   | p :: _ => ["Paper: " ++ p.title]) ++
  (match data.repositories with
   | [] => []
   | r :: rest =>
     let top := rest.foldl (fun best x => if x.stars > best.stars then x else best) r
     ["Repository: " ++ top.title ++ " (" ++ toString top.stars ++ " stars)"])

/-- `GroqAnalyzer._fallback_analysis`: the deterministic no-LLM analysis
built from per-category counts and the top items. -/
def GroqAnalyzer.fallback_analysis (data : ScrapeResults) (query : String) : Analysis :=
  { key_findings := [
      "Found " ++ toString data.papers.length ++ " academic papers",
      "Found " ++ toString data.repositories.length ++ " GitHub repositories",
      "Found " ++ toString data.news.length ++ " news articles",
      "Found " ++ toString data.discussions.length ++ " discussions"],
    trends := "Research on " ++ query ++ " shows active development across multiple platforms.",
    notable_items := GroqAnalyzer.get_top_items data,
    recommendations := [
      "Review the top papers for academic insights",
      "Explore trending repositories for practical implementations",
      "Follow ongoing discussions for community perspectives"],
    summary := "Comprehensive research on \x27" ++ query ++
      "\x27 reveals significant activity across academic papers, open-source projects, and community discussions." }

/-- An initialized LLM backend branch of `ResearchAnalyzer`, abstracted as
the analysis it would produce for given data and query (the three provider
branches are external LLM calls, out of scope; `none` models an
uninitialized client, exactly the `if not self.client` checks). -/
def LLMBranch := ScrapeResults → String → Analysis

/-- `ResearchAnalyzer.analyze`: try Groq, then Gemini, then HuggingFace;
with no backend reachable, fall back to the deterministic analysis. -/
def ResearchAnalyzer.analyze (groq gemini hf : Option LLMBranch)
    (data : ScrapeResults) (query : String) : Analysis :=
  match groq with
  | some g => g data query
  | none =>
    match gemini with
    | some g => g data query
    | none =>
      match hf with
      | some h => h data query
      | none => GroqAnalyzer.fallback_analysis data query

/-! ## `src/autonomous_agent/models/model_manager.py` -/

/-- The static `task_to_model` lookup table of `select_best_model`. -/
def ModelManager.task_to_model : List (String × String) :=
  [("code", "llama"), ("reasoning", "llama"), ("general", "mistral"),
   ("fast", "phi"), ("creative", "mistral")]

/-- `ModelManager.select_best_model`: table lookup with default `"mistral"`,
then fallback to the first registered configuration name (or `"llama"` when
none is registered).  `configs` is the list of registered model names in
insertion order (the keys of `self.configs`). -/
def ModelManager.select_best_model (configs : List String) (task_type : String) : String :=
  let selected := (ModelManager.task_to_model.lookup task_type).getD "mistral"
  if configs.contains selected then selected
  else
    match configs with
    | [] => "llama"
    | c :: _ => c

/-! ## `src/memory.py` — `CacheManager` -/

/-- One cache file `{timestamp, key, value}` (`CacheManager.set`).
Timestamps are modelled as integers; the TTL is in the same units. -/
structure CacheEntry (α : Type) where
  timestamp : Int
  key : String
  value : α
deriving Repr, DecidableEq

/-- The cache directory, modelled as an association list from the cache key
to its entry (the md5 file naming is injective on keys). -/
structure CacheManager (α : Type) where
  ttl : Int
  store : List (String × CacheEntry α)
deriving Repr, DecidableEq

/-- `CacheManager.set`: write the cache file for `key`, overwriting any
previous one, stamped with the current time `now`. -/
def CacheManager.set (c : CacheManager α) (now : Int) (key : String) (v : α) :
    CacheManager α :=
  { c with store := (key, ⟨now, key, v⟩) :: c.store.filter (fun p => p.1 != key) }

/-- `CacheManager.get`: absent file means `none`; an expired entry
(`now - cached_time > ttl`) is deleted on read and reported `none`;
otherwise the cached value is returned.  The updated manager is returned
alongside to model the file deletion. -/
def CacheManager.get (c : CacheManager α) (now : Int) (key : String) :
    Option α × CacheManager α :=
  match c.store.lookup key with
  | none => (none, c)
  | some e =>
    if now - e.timestamp > c.ttl then
      (none, { c with store := c.store.filter (fun p => p.1 != key) })
    else (some e.value, c)

/-! ## `src/phase3_advanced.py` — workflow state machine -/

/-- The `WorkflowState` enum. -/
inductive WorkflowState where
  | INIT
  | PLANNING
  | COLLECTING
  | ANALYZING
  | SYNTHESIZING
  | EVALUATING
  | REFINING
  | COMPLETE
  | FAILED
deriving Repr, DecidableEq

/-- The config dictionary passed to `ResearchWorkflow.execute`
(`config.get` with its defaults is modelled by `Option.getD`). -/
structure WorkflowConfig where
  depth : Option String
  focus : Option String
  time_range : Option String
deriving Repr, DecidableEq

/-- The `metadata['plan']` record written by `_plan`. -/
structure ResearchPlan where
  primary_query : String
  sources : List String
  depth : String
  focus : String
deriving Repr, DecidableEq

/-- The `metadata['data_stats']` record written by `_collect_data`. -/
structure DataStats where
  total_items : Nat
  sources : List String
deriving Repr, DecidableEq

/-- The evaluation dictionary returned by `ResearchEvaluator`
(`src/evaluation.py`); only the field the workflow reads is modelled. -/
structure Evaluation where
  overall_score : ℚ
deriving Repr, DecidableEq

/-- The `state.metadata` dictionary; its keys are the fixed literals the
workflow writes (`plan`, `data_stats`, `evaluation`, `refinement_count`). -/
structure WorkflowMetadata where
  plan : Option ResearchPlan
  data_stats : Option DataStats
  evaluation : Option Evaluation
  refinement_count : Option Nat
deriving Repr, DecidableEq

/-- The collected-data dictionary (`Dict[str, List[Dict]]`): category name
to item payloads; item contents are opaque to the workflow. -/
def CollectedData := List (String × List String)
deriving Repr, DecidableEq

/-- The `AgentState` dataclass. -/
structure AgentState where
  query : String
  config : WorkflowConfig
  current_stage : WorkflowState
  data : CollectedData
  analysis : Option String
  report : Option String
  quality_score : Option ℚ
  errors : List String
  metadata : WorkflowMetadata
deriving Repr, DecidableEq

/-- The environment of one workflow run: the outcome of every external call
a transition makes (`collect_data`, `analyze_data`,
`generate_markdown_report`, `ResearchEvaluator.evaluate_research`) and of
`AgentState.save_checkpoint`; `.error` models a raised exception. -/
structure WorkflowEnv where
  collect_data : String → String → String → Except String CollectedData
  analyze_data : String → CollectedData → String → Except String String
  generate_markdown_report : String → CollectedData → Option String → Except String String
  evaluate_research : String → CollectedData → Option String → Option String → Except String Evaluation
  save_checkpoint : AgentState → Except String Unit

/-- `ResearchWorkflow._plan`: record the plan metadata and move to
`PLANNING`; raises nothing. -/
def ResearchWorkflow.plan (state : AgentState) : AgentState :=
  { state with
    metadata := { state.metadata with plan := some (ResearchPlan.mk
      state.query
      ["arxiv", "github", "hackernews", "reddit", "devto", "rss"]
      (state.config.depth.getD "standard")
      (state.config.focus.getD "all")) },
    current_stage := WorkflowState.PLANNING }

/-- `ResearchWorkflow._collect_data`: call the scraper, record the data and
its stats, move to `COLLECTING`. -/
def ResearchWorkflow.collect_data (env : WorkflowEnv) (state : AgentState) :
    Except String AgentState :=
  match env.collect_data state.query (state.config.time_range.getD "month")
      (state.config.focus.getD "all") with
  | .error e => .error e
  | .ok d => .ok { state with
      data := d,
      metadata := { state.metadata with data_stats := some (DataStats.mk
        ((d.map (fun p => p.2.length)).sum) (d.map Prod.fst)) },
      current_stage := WorkflowState.COLLECTING }

/-- `ResearchWorkflow._analyze`: call the analyzer, move to `ANALYZING`. -/
def ResearchWorkflow.analyze (env : WorkflowEnv) (state : AgentState) :
    Except String AgentState :=
  match env.analyze_data state.query state.data (state.config.depth.getD "standard") with
  | .error e => .error e
  | .ok a => .ok { state with analysis := some a, current_stage := WorkflowState.ANALYZING }

/-- `ResearchWorkflow._synthesize`: render the report, move to `SYNTHESIZING`. -/
def ResearchWorkflow.synthesize (env : WorkflowEnv) (state : AgentState) :
    Except String AgentState :=
  match env.generate_markdown_report state.query state.data state.analysis with
  | .error e => .error e
  | .ok r => .ok { state with report := some r, current_stage := WorkflowState.SYNTHESIZING }

/-- `ResearchWorkflow._evaluate`: score the run, move to `EVALUATING`. -/
def ResearchWorkflow.evaluate (env : WorkflowEnv) (state : AgentState) :
    Except String AgentState :=
  match env.evaluate_research state.query state.data state.analysis state.report with
  | .error e => .error e
  | .ok ev => .ok { state with
      quality_score := some ev.overall_score,
      metadata := { state.metadata with evaluation := some ev },
      current_stage := WorkflowState.EVALUATING }

/-- Python truthiness of `state.quality_score and state.quality_score <
min_quality`: `None` and `0.0` are falsy, so the comparison only happens
for a non-`None`, non-zero score. -/
def pyScoreBelow (qs : Option ℚ) (min_quality : ℚ) : Bool :=
  match qs with
  | none => false
  | some q => if q = 0 then false else decide (q < min_quality)

/-- `ResearchWorkflow._refine_or_complete`: loop back to `PLANNING` with an
incremented `refinement_count` when the (truthy) quality score is below the
0.7 threshold and no refinement happened yet; else `COMPLETE`. -/
def ResearchWorkflow.refine_or_complete (state : AgentState) : AgentState :=
  let min_quality : ℚ := 7/10
  if pyScoreBelow state.quality_score min_quality then
    if state.metadata.refinement_count.getD 0 < 1 then
      { state with
        metadata := { state.metadata with
          refinement_count := some (state.metadata.refinement_count.getD 0 + 1) },
        current_stage := WorkflowState.PLANNING }
    else { state with current_stage := WorkflowState.COMPLETE }
  else { state with current_stage := WorkflowState.COMPLETE }

/-- Outcome of `transition_func = self.transitions.get(...)` followed by
`self.state = transition_func(self.state)`: no function registered for the
stage, an exception raised inside the transition, or the successor state. -/
inductive StepResult where
  | noFunc
  | raised (e : String)
  | next (s : AgentState)
deriving Repr

/-- The `self.transitions` dispatch table applied once to the current
stage. -/
def ResearchWorkflow.transition (env : WorkflowEnv) (s : AgentState) : StepResult :=
  match s.current_stage with
  | WorkflowState.INIT => StepResult.next (ResearchWorkflow.plan s)
  | WorkflowState.PLANNING =>
    match ResearchWorkflow.collect_data env s with
    | .error e => StepResult.raised e
    | .ok s2 => StepResult.next s2
  | WorkflowState.COLLECTING =>
    match ResearchWorkflow.analyze env s with
    | .error e => StepResult.raised e
    | .ok s2 => StepResult.next s2
  | WorkflowState.ANALYZING =>
    match ResearchWorkflow.synthesize env s with
    | .error e => StepResult.raised e
    | .ok s2 => StepResult.next s2
  | WorkflowState.SYNTHESIZING =>
    match ResearchWorkflow.evaluate env s with
    | .error e => StepResult.raised e
    | .ok s2 => StepResult.next s2
  | WorkflowState.EVALUATING => StepResult.next (ResearchWorkflow.refine_or_complete s)
  | _ => StepResult.noFunc

/-- Result of an engine run: the final state, the checkpoint snapshots
written (in order), and the stages from which a transition fired. -/
structure RunResult where
  final : AgentState
  checkpoints : List AgentState
  trace : List WorkflowState
deriving Repr

/-- The `while` loop of `ResearchWorkflow.execute`, with explicit fuel (the
loop itself is unbounded; `ResearchWorkflow.run_stable` below shows the
fuel is irrelevant once a terminal stage is reached).  A raised exception —
in the transition or in the checkpoint write — is caught: the message is
appended to `state.errors`, the stage is forced to `FAILED` and the loop
breaks; after a successful transition the new state is checkpointed. -/
def ResearchWorkflow.run (env : WorkflowEnv) :
    Nat → AgentState → List AgentState → List WorkflowState → RunResult
  | 0, s, cps, tr => ⟨s, cps, tr⟩
  | Nat.succ fuel, s, cps, tr =>
    if s.current_stage = WorkflowState.COMPLETE ∨ s.current_stage = WorkflowState.FAILED then
      ⟨s, cps, tr⟩
    else
      match ResearchWorkflow.transition env s with
      | StepResult.noFunc => ⟨s, cps, tr⟩
      | StepResult.raised e =>
        ⟨{ s with errors := s.errors ++ [e], current_stage := WorkflowState.FAILED },
          cps, tr ++ [s.current_stage]⟩
      | StepResult.next s2 =>
        match env.save_checkpoint s2 with
        | .error e =>
          ⟨{ s2 with errors := s2.errors ++ [e], current_stage := WorkflowState.FAILED },
            cps, tr ++ [s.current_stage]⟩
        | .ok _ => ResearchWorkflow.run env fuel s2 (cps ++ [s2]) (tr ++ [s.current_stage])

/-- The fresh state built at the top of `ResearchWorkflow.execute`. -/
def ResearchWorkflow.initial_state (query : String) (config : WorkflowConfig) : AgentState :=
  { query := query,
    config := config,
    current_stage := WorkflowState.INIT,
    data := [],
    analysis := none,
    report := none,
    quality_score := none,
    errors := [],
    metadata := { plan := none, data_stats := none, evaluation := none,
                  refinement_count := none } }

/-- The number of stages in the `self.transitions` dispatch table. -/
def ResearchWorkflow.num_stages : Nat := 6

/-- `ResearchWorkflow.execute`: initialize the state and run the loop.  Fuel
`2 * num_stages` steps suffices (proved below), so the unbounded Python
loop and this bounded run coincide. -/
def ResearchWorkflow.execute (env : WorkflowEnv) (query : String)
    (config : WorkflowConfig) : RunResult :=
  ResearchWorkflow.run env (2 * ResearchWorkflow.num_stages)
    (ResearchWorkflow.initial_state query config) [] []

/-! ## Supporting lemmas -/

/-- Appending to a nonempty string yields a nonempty string. -/
theorem string_append_ne_empty_left (a b : String) (ha : a ≠ "") : a ++ b ≠ "" := by
  intro h
  apply ha
  have hl := congrArg String.length h
  rw [String.length_append] at hl
  have h0 : ("" : String).length = 0 := rfl
  have ha0 : a.length = 0 := by omega
  exact String.ext (List.length_eq_zero.mp ha0)

/-- Looking up a key in a list from which that key was filtered out gives
`none`. -/
theorem lookup_filter_ne {α : Type} (l : List (String × α)) (k : String) :
    (l.filter (fun p => p.1 != k)).lookup k = none := by
  induction l with
  | nil => rfl
  | cons p rest ih =>
    by_cases h : p.1 = k
    · simpa [List.filter_cons, h] using ih
    · have hb : (k == p.1) = false := beq_eq_false_iff_ne.mpr (fun he => h he.symm)
      simp [List.filter_cons, h, List.lookup, hb, ih]

/-! ## C5 — model selection -/

/-- C5: for every task-type string, with at least one registered model
configuration, `select_best_model` returns a registered name; it returns
the table's choice whenever that choice is registered (the table maps
`code` and `reasoning` to `llama`, `general` and `creative` to `mistral`,
`fast` to `phi`, anything else defaulting to `mistral`), and otherwise
falls back to the first registered name. -/
theorem C5_select_best_model (configs : List String) (task_type : String)
    (h : configs ≠ []) :
    ModelManager.select_best_model configs task_type ∈ configs
    ∧ ((ModelManager.task_to_model.lookup task_type).getD "mistral" ∈ configs →
        ModelManager.select_best_model configs task_type
          = (ModelManager.task_to_model.lookup task_type).getD "mistral")
    ∧ ((ModelManager.task_to_model.lookup task_type).getD "mistral" ∉ configs →
        ModelManager.select_best_model configs task_type = configs.headI)
    ∧ ModelManager.task_to_model.lookup "code" = some "llama"
    ∧ ModelManager.task_to_model.lookup "reasoning" = some "llama"
    ∧ ModelManager.task_to_model.lookup "general" = some "mistral"
    ∧ ModelManager.task_to_model.lookup "creative" = some "mistral"
    ∧ ModelManager.task_to_model.lookup "fast" = some "phi" := by
  obtain ⟨c, rest, rfl⟩ := List.exists_cons_of_ne_nil h
  refine ⟨?_, ?_, ?_, by decide, by decide, by decide, by decide, by decide⟩ <;>
    · unfold ModelManager.select_best_model
      by_cases hc :
        ((ModelManager.task_to_model.lookup task_type).getD "mistral") ∈ c :: rest <;>
        simp [hc]

/-- C5 witness: with the three default names registered, the `code` task
selects a registered model. -/
theorem C5_select_best_model_witness :
    ModelManager.select_best_model ["llama", "mistral", "phi"] "code"
      ∈ ["llama", "mistral", "phi"] :=
  (C5_select_best_model ["llama", "mistral", "phi"] "code" (by decide)).1

/-! ## C7 — deterministic fallback analysis -/

/-- C7: with no LLM backend reachable, `ResearchAnalyzer.analyze` is the
deterministic fallback analysis: its summary is non-empty, its key findings
are non-empty and contain the literal per-category counts. -/
theorem C7_no_backend_fallback (data : ScrapeResults) (query : String) :
    ResearchAnalyzer.analyze none none none data query
        = GroqAnalyzer.fallback_analysis data query
    ∧ (ResearchAnalyzer.analyze none none none data query).summary ≠ ""
    ∧ (ResearchAnalyzer.analyze none none none data query).key_findings ≠ []
    ∧ ("Found " ++ toString data.papers.length ++ " academic papers")
        ∈ (ResearchAnalyzer.analyze none none none data query).key_findings
    ∧ ("Found " ++ toString data.repositories.length ++ " GitHub repositories")
        ∈ (ResearchAnalyzer.analyze none none none data query).key_findings
    ∧ ("Found " ++ toString data.news.length ++ " news articles")
        ∈ (ResearchAnalyzer.analyze none none none data query).key_findings
    ∧ ("Found " ++ toString data.discussions.length ++ " discussions")
        ∈ (ResearchAnalyzer.analyze none none none data query).key_findings := by
  refine ⟨rfl, ?_, ?_, ?_, ?_, ?_, ?_⟩
  · exact string_append_ne_empty_left _ _
      (string_append_ne_empty_left _ _ (by decide))
  · exact List.cons_ne_nil _ _
  all_goals simp [ResearchAnalyzer.analyze, GroqAnalyzer.fallback_analysis]

/-! ## C8 — cache round-trip -/

/-- C8: `set` then `get` on the same key returns the stored value while the
TTL has not elapsed; once more than the TTL has passed, the read reports
absent and deletes the entry; a never-set key reads absent. -/
theorem C8_cache_roundtrip {α : Type} (c : CacheManager α) (t_set t_get : Int)
    (k : String) (v : α) :
    (t_get - t_set ≤ c.ttl →
      ((c.set t_set k v).get t_get k).1 = some v)
    ∧ (t_get - t_set > c.ttl →
      ((c.set t_set k v).get t_get k).1 = none
      ∧ (((c.set t_set k v).get t_get k).2).store.lookup k = none)
    ∧ (c.store.lookup k = none → (c.get t_get k).1 = none) := by
  refine ⟨?_, ?_, ?_⟩
  · intro h
    unfold CacheManager.get CacheManager.set
    simp [List.lookup, not_lt.mpr h]
  · intro h
    unfold CacheManager.get CacheManager.set
    simp only [List.lookup, beq_self_eq_true, if_pos]
    rw [if_pos h]
    exact ⟨rfl, lookup_filter_ne _ _⟩
  · intro h
    unfold CacheManager.get
    rw [h]

/-- C8 witness: a fresh cache with TTL 10, set at time 0: read at time 5
returns the value, read at time 20 is absent and deletes the entry. -/
theorem C8_cache_roundtrip_witness :
    (((CacheManager.mk 10 [] : CacheManager String).set 0 "k" "v").get 5 "k").1 = some "v"
    ∧ (((CacheManager.mk 10 [] : CacheManager String).set 0 "k" "v").get 20 "k").1 = none := by
  exact ⟨(C8_cache_roundtrip (CacheManager.mk 10 []) 0 5 "k" "v").1 (by decide),
    ((C8_cache_roundtrip (CacheManager.mk 10 []) 0 20 "k" "v").2.1 (by decide)).1⟩

/-! ## C9 — refinement loop-back frame property -/

/-- C9: the refine-or-complete transition changes only the stage and the
refinement counter: query, config, data, analysis, report, quality score,
errors and the recorded plan are all unchanged, so a loop-back to planning
re-runs the pipeline with the identical query and configuration. -/
theorem C9_refine_or_complete_frame (s : AgentState) :
    (ResearchWorkflow.refine_or_complete s).query = s.query
    ∧ (ResearchWorkflow.refine_or_complete s).config = s.config
    ∧ (ResearchWorkflow.refine_or_complete s).data = s.data
    ∧ (ResearchWorkflow.refine_or_complete s).analysis = s.analysis
    ∧ (ResearchWorkflow.refine_or_complete s).report = s.report
    ∧ (ResearchWorkflow.refine_or_complete s).quality_score = s.quality_score
    ∧ (ResearchWorkflow.refine_or_complete s).errors = s.errors
    ∧ (ResearchWorkflow.refine_or_complete s).metadata.plan = s.metadata.plan
    ∧ (ResearchWorkflow.refine_or_complete s).metadata.data_stats = s.metadata.data_stats
    ∧ (ResearchWorkflow.refine_or_complete s).metadata.evaluation = s.metadata.evaluation := by
  by_cases h1 : pyScoreBelow s.quality_score (7/10) = true <;>
    by_cases h2 : s.metadata.refinement_count.getD 0 < 1 <;>
      simp [ResearchWorkflow.refine_or_complete, h1, h2]

/-! ## C1 — the refine-or-complete decision rule -/

/-- A concrete workflow state in the evaluating stage whose quality score is
exactly 0.0 and whose refinement counter is unset. -/
def evalStateAtZero : AgentState :=
  { query := "q",
    config := ⟨none, none, none⟩,
    current_stage := WorkflowState.EVALUATING,
    data := [],
    analysis := some "a",
    report := some "r",
    quality_score := some 0,
    errors := [],
    metadata := ⟨none, none, some ⟨0⟩, none⟩ }

/-- C1 counterexample: a state in the evaluating stage with
`quality_score = 0.0` (which is in `[0,1]` and below 0.7) and
`refinement_count = 0 < 1`.  The claim predicts a loop-back to planning
with the counter incremented, but `0.0` is falsy in Python, so
`_refine_or_complete` transitions to complete and leaves the counter
unset. -/
theorem C1_counterexample :
    evalStateAtZero.current_stage = WorkflowState.EVALUATING
    ∧ evalStateAtZero.quality_score = some 0
    ∧ (0 : ℚ) < 7/10
    ∧ evalStateAtZero.metadata.refinement_count.getD 0 < 1
    ∧ (ResearchWorkflow.refine_or_complete evalStateAtZero).current_stage
        = WorkflowState.COMPLETE
    ∧ (ResearchWorkflow.refine_or_complete evalStateAtZero).metadata.refinement_count
        = none := by
  exact ⟨rfl, rfl, by norm_num, by decide, by decide, by decide⟩

/-- C1 (amended): for a state in the evaluating stage, the decision rule
holds for every strictly positive quality score: if `0 < quality_score <
0.7` and `refinement_count < 1`, the transition increments the counter and
loops back to planning; with `refinement_count >= 1` it completes (a second
refinement is never taken); and with a score of exactly `0.0` (falsy in
Python), a score `>= 0.7`, or no score at all it completes. -/
theorem C1_refine_rule_amended (s : AgentState) (q : ℚ)
    (_hstage : s.current_stage = WorkflowState.EVALUATING) :
    (s.quality_score = some q → 0 < q → q < 7/10 →
        s.metadata.refinement_count.getD 0 < 1 →
        (ResearchWorkflow.refine_or_complete s).current_stage = WorkflowState.PLANNING
        ∧ (ResearchWorkflow.refine_or_complete s).metadata.refinement_count
            = some (s.metadata.refinement_count.getD 0 + 1))
    ∧ (1 ≤ s.metadata.refinement_count.getD 0 →
        (ResearchWorkflow.refine_or_complete s).current_stage = WorkflowState.COMPLETE)
    ∧ (s.quality_score = some q → (q = 0 ∨ 7/10 ≤ q) →
        (ResearchWorkflow.refine_or_complete s).current_stage = WorkflowState.COMPLETE)
    ∧ (s.quality_score = none →
        (ResearchWorkflow.refine_or_complete s).current_stage = WorkflowState.COMPLETE) := by
  refine ⟨?_, ?_, ?_, ?_⟩
  · intro hq h0 hlt hrc
    have hb : pyScoreBelow s.quality_score (7/10) = true := by
      rw [hq]
      simp [pyScoreBelow, ne_of_gt h0, hlt]
    unfold ResearchWorkflow.refine_or_complete
    simp [hb, hrc]
  · intro hrc
    unfold ResearchWorkflow.refine_or_complete
    by_cases hb : pyScoreBelow s.quality_score (7/10) <;>
      simp [hb, Nat.not_lt.mpr hrc]
  · intro hq hcase
    have hb : pyScoreBelow s.quality_score (7/10) = false := by
      rw [hq]
      rcases hcase with h0 | hge
      · simp [pyScoreBelow, h0]
      · simp [pyScoreBelow, not_lt.mpr hge]
    unfold ResearchWorkflow.refine_or_complete
    simp [hb]
  · intro hq
    unfold ResearchWorkflow.refine_or_complete
    simp [hq, pyScoreBelow]

/-- A concrete evaluating-stage state with quality score 0.5 and no prior
refinement. -/
def evalStateHalf : AgentState :=
  { evalStateAtZero with quality_score := some (1/2) }

/-- C1 witness: at quality score 0.5 with no prior refinement, the amended
rule loops back to planning with the counter set to 1. -/
theorem C1_refine_rule_amended_witness :
    (ResearchWorkflow.refine_or_complete evalStateHalf).current_stage
        = WorkflowState.PLANNING
    ∧ (ResearchWorkflow.refine_or_complete evalStateHalf).metadata.refinement_count
        = some 1 := by
  have h := (C1_refine_rule_amended evalStateHalf (1/2) rfl).1 rfl
    (by norm_num) (by norm_num) (by decide)
  exact ⟨h.1, h.2⟩

/-! ## C3 — web-category deduplication -/

/-- The urls produced by the dedup loop are distinct and avoid the seen
set. -/
theorem dedupByUrl_nodup (l : List WebResult) (seen : List String) :
    ((DataScraper.dedupByUrl l seen).map WebResult.url).Nodup
    ∧ ∀ u ∈ (DataScraper.dedupByUrl l seen).map WebResult.url, u ∉ seen := by
  induction l generalizing seen with
  | nil => exact ⟨List.nodup_nil, by simp [DataScraper.dedupByUrl]⟩
  | cons it rest ih =>
    by_cases h : it.url ∈ seen
    · have hc : seen.contains it.url = true := by simpa using h
      rw [DataScraper.dedupByUrl, hc]
      simpa using ih seen
    · have hc : seen.contains it.url = false := by simpa using h
      obtain ⟨h1, h2⟩ := ih (it.url :: seen)
      refine ⟨?_, ?_⟩
      · rw [DataScraper.dedupByUrl]
        rw [hc]
        simp only [Bool.false_eq_true, if_false, List.map_cons, List.nodup_cons]
        exact ⟨fun hmem => (h2 it.url hmem) (List.mem_cons_self _ _), h1⟩
      · intro u hu
        rw [DataScraper.dedupByUrl, hc] at hu
        simp only [Bool.false_eq_true, if_false, List.map_cons, List.mem_cons] at hu
        rcases hu with rfl | hu
        · exact h
        · exact fun hs => (h2 u hu) (List.mem_cons_of_mem _ hs)

/-- The dedup loop keeps the first occurrence of every url not yet seen. -/
theorem dedupByUrl_find? (l : List WebResult) (seen : List String) (u : String)
    (hu : u ∉ seen) :
    (DataScraper.dedupByUrl l seen).find? (fun i => i.url == u)
      = l.find? (fun i => i.url == u) := by
  induction l generalizing seen with
  | nil => rfl
  | cons it rest ih =>
    by_cases h : it.url = u
    · have hc : seen.contains it.url = false := by
        subst h
        simpa using hu
      rw [DataScraper.dedupByUrl, hc]
      simp only [Bool.false_eq_true, if_false]
      rw [List.find?_cons, List.find?_cons]
      simp [h]
    · have hne : (it.url == u) = false := beq_eq_false_iff_ne.mpr h
      by_cases hc : it.url ∈ seen
      · have hcc : seen.contains it.url = true := by simpa using hc
        rw [DataScraper.dedupByUrl, hcc]
        simp only [if_true]
        rw [List.find?_cons, hne]
        exact ih seen hu
      · have hcc : seen.contains it.url = false := by simpa using hc
        rw [DataScraper.dedupByUrl, hcc]
        simp only [Bool.false_eq_true, if_false]
        rw [List.find?_cons, List.find?_cons, hne]
        exact ih (it.url :: seen) (by
          intro hmem
          rcases List.mem_cons.mp hmem with rfl | hmem2
          · exact h rfl
          · exact hu hmem2)

/-- A scrape environment at depth `standard` whose web-search tool and
trend calls return one result each with the same url. -/
def envDupWeb : ScrapeEnv :=
  { arxiv_resp := .error "down",
    github_resp := .error "down",
    hn_resp := .error "down",
    reddit_resp := .error "down",
    devto_resp := .error "down",
    rss_feeds := [],
    web_search := some ⟨.ok [⟨"tool page", "u"⟩], .ok [⟨"trend page", "u"⟩], .error "down"⟩,
    now := 0 }

/-- C3 counterexample: at depth `standard` (where `scrape_all` never runs
its dedup pass) the returned web category holds two items with the same
url, refuting the claim for every depth tier. -/
theorem C3_counterexample :
    ((DataScraper.scrape_all envDupWeb "q" "all" "month" "standard").web_results.map
        WebResult.url) = ["u", "u"]
    ∧ ¬ ((DataScraper.scrape_all envDupWeb "q" "all" "month" "standard").web_results.map
        WebResult.url).Nodup := by
  exact ⟨by decide, by decide⟩

/-- C3 (amended): only at depth `deep`, with the web-search module present
and the general web search succeeding, is the web category deduplicated:
then no two returned web items share a url, and for every url the first
item returned is the first occurrence in the concatenated adapter output
(tools, then trends, then general search). -/
theorem C3_web_dedup_amended (env : ScrapeEnv) (q focus tr : String)
    (ws : WebSearcher) (general : List WebResult)
    (hws : env.web_search = some ws) (hok : ws.search = .ok general) :
    (((DataScraper.scrape_all env q focus tr "deep").web_results).map WebResult.url).Nodup
    ∧ ∀ u, ((DataScraper.scrape_all env q focus tr "deep").web_results).find?
          (fun i => i.url == u)
        = ((DataScraper.web_tools env focus "deep" ++ DataScraper.web_trends env focus "deep")
            ++ general).find? (fun i => i.url == u) := by
  have hw : (DataScraper.scrape_all env q focus tr "deep").web_results
      = DataScraper.dedupByUrl
          ((DataScraper.web_tools env focus "deep" ++ DataScraper.web_trends env focus "deep")
            ++ general) [] := by
    show DataScraper.web_results env focus "deep" = _
    unfold DataScraper.web_results
    rw [hws]
    simp [hok]
  rw [hw]
  exact ⟨(dedupByUrl_nodup _ []).1, fun u => dedupByUrl_find? _ [] u (by simp)⟩

/-- A deep-depth scrape environment whose general web search returns two
items sharing a url. -/
def envDeepWeb : ScrapeEnv :=
  { arxiv_resp := .error "down",
    github_resp := .error "down",
    hn_resp := .error "down",
    reddit_resp := .error "down",
    devto_resp := .error "down",
    rss_feeds := [],
    web_search := some ⟨.error "down", .error "down", .ok [⟨"x", "u"⟩, ⟨"y", "u"⟩]⟩,
    now := 0 }

/-- C3 witness: the amended dedup guarantee applied to a concrete deep
run. -/
theorem C3_web_dedup_amended_witness :
    (((DataScraper.scrape_all envDeepWeb "q" "all" "month" "deep").web_results).map
        WebResult.url).Nodup :=
  (C3_web_dedup_amended envDeepWeb "q" "all" "month" ⟨.error "down", .error "down",
    .ok [⟨"x", "u"⟩, ⟨"y", "u"⟩]⟩ [⟨"x", "u"⟩, ⟨"y", "u"⟩] rfl rfl).1

/-! ## C4 — adapter failure behaviour -/

/-- A concrete RSS entry for the counterexample evaluation. -/
def rssEntryOne : RSSEntry := ⟨"title", "summary", "https://example.org/a", "2024"⟩

/-- C4 counterexample: the RSS adapter does not return an empty sequence on
a failure of an underlying fetch — a failing first feed is skipped and the
second feed's entries are still returned, refuting the claim for the RSS
adapter. -/
theorem C4_counterexample :
    RSSFeedScraper.scrape [Except.error "timeout", Except.ok [rssEntryOne]] "" 30 ≠ [] := by
  decide

/-- C4 (amended): the arXiv, GitHub, HackerNews, Reddit and Dev.to adapters
return an empty item sequence on any failure of their network call or
response parsing; the RSS adapter instead isolates failures per feed — a
failing feed contributes nothing (so the result is empty precisely when
every feed fails), and removing a failing feed does not change the
output.  No adapter propagates an exception. -/
theorem C4_adapter_failures_amended (e : String) (now : Int) (tr q : String) (n : Nat)
    (feeds pre post : List (Except String (List RSSEntry))) :
    ArxivScraper.search (Except.error e) now tr = []
    ∧ GitHubScraper.search_repositories (Except.error e) n = []
    ∧ HackerNewsScraper.get_top_stories (Except.error e) q n = []
    ∧ RedditScraper.search (Except.error e) = []
    ∧ DevToScraper.search (Except.error e) q n = []
    ∧ ((∀ f ∈ feeds, ∃ msg, f = Except.error msg) →
        RSSFeedScraper.scrape feeds q n = [])
    ∧ RSSFeedScraper.scrape (pre ++ Except.error e :: post) q n
        = RSSFeedScraper.scrape (pre ++ post) q n := by
  refine ⟨rfl, rfl, rfl, rfl, rfl, ?_, ?_⟩
  · intro hall
    unfold RSSFeedScraper.scrape
    have hmap : feeds.map (RSSFeedScraper.feed_items q) = feeds.map (fun _ => []) := by
      apply List.map_congr_left
      intro f hf
      obtain ⟨msg, rfl⟩ := hall f hf
      rfl
    rw [hmap]
    simp
  · unfold RSSFeedScraper.scrape
    simp [RSSFeedScraper.feed_items]

/-- C4 witness: concrete failures — a single failing feed yields an empty
RSS result, and dropping a failing feed in front of a live one leaves the
live feed's items. -/
theorem C4_adapter_failures_amended_witness :
    RSSFeedScraper.scrape [Except.error "timeout"] "" 5 = []
    ∧ RSSFeedScraper.scrape [Except.error "timeout", Except.ok [rssEntryOne]] "" 5
        = RSSFeedScraper.scrape [Except.ok [rssEntryOne]] "" 5 := by
  refine ⟨?_, ?_⟩
  · exact (C4_adapter_failures_amended "timeout" 0 "" "" 5 [Except.error "timeout"] [] []).2.2.2.2.2.1
      (by
        intro f hf
        rw [List.mem_singleton] at hf
        exact ⟨"timeout", hf⟩)
  · exact (C4_adapter_failures_amended "timeout" 0 "" "" 5 [] [] [Except.ok [rssEntryOne]]).2.2.2.2.2.2

/-! ## Engine lemmas (C2, C6, C10) -/

/-- The refinement counter read the way `_refine_or_complete` reads it,
capped at 1 (the counter never exceeds 1 along a run, and only the cap
matters for the termination measure). -/
def AgentState.rcCap (s : AgentState) : Nat :=
  min (s.metadata.refinement_count.getD 0) 1

/-- Termination measure for the workflow loop: strictly decreases along
every fired transition. -/
def AgentState.rank (s : AgentState) : Nat :=
  match s.current_stage with
  | WorkflowState.INIT => 11
  | WorkflowState.PLANNING => 10 - 5 * s.rcCap
  | WorkflowState.COLLECTING => 9 - 5 * s.rcCap
  | WorkflowState.ANALYZING => 8 - 5 * s.rcCap
  | WorkflowState.SYNTHESIZING => 7 - 5 * s.rcCap
  | WorkflowState.EVALUATING => 6 - 5 * s.rcCap
  | WorkflowState.REFINING => 0
  | WorkflowState.COMPLETE => 0
  | WorkflowState.FAILED => 0

/-- A successful `_collect_data` moves to `COLLECTING` and leaves the
refinement counter unchanged. -/
theorem collect_data_ok_shape (env : WorkflowEnv) (s s2 : AgentState)
    (h : ResearchWorkflow.collect_data env s = Except.ok s2) :
    s2.current_stage = WorkflowState.COLLECTING
    ∧ s2.metadata.refinement_count = s.metadata.refinement_count := by
  unfold ResearchWorkflow.collect_data at h
  cases hec : env.collect_data s.query (s.config.time_range.getD "month")
      (s.config.focus.getD "all") with
  | error e => rw [hec] at h; cases h
  | ok d => rw [hec] at h; cases h; exact ⟨rfl, rfl⟩

/-- A successful `_analyze` moves to `ANALYZING` and leaves the refinement
counter unchanged. -/
theorem analyze_ok_shape (env : WorkflowEnv) (s s2 : AgentState)
    (h : ResearchWorkflow.analyze env s = Except.ok s2) :
    s2.current_stage = WorkflowState.ANALYZING
    ∧ s2.metadata.refinement_count = s.metadata.refinement_count := by
  unfold ResearchWorkflow.analyze at h
  cases hec : env.analyze_data s.query s.data (s.config.depth.getD "standard") with
  | error e => rw [hec] at h; cases h
  | ok a => rw [hec] at h; cases h; exact ⟨rfl, rfl⟩

/-- A successful `_synthesize` moves to `SYNTHESIZING` and leaves the
refinement counter unchanged. -/
theorem synthesize_ok_shape (env : WorkflowEnv) (s s2 : AgentState)
    (h : ResearchWorkflow.synthesize env s = Except.ok s2) :
    s2.current_stage = WorkflowState.SYNTHESIZING
    ∧ s2.metadata.refinement_count = s.metadata.refinement_count := by
  unfold ResearchWorkflow.synthesize at h
  cases hec : env.generate_markdown_report s.query s.data s.analysis with
  | error e => rw [hec] at h; cases h
  | ok r => rw [hec] at h; cases h; exact ⟨rfl, rfl⟩

/-- A successful `_evaluate` moves to `EVALUATING` and leaves the
refinement counter unchanged. -/
theorem evaluate_ok_shape (env : WorkflowEnv) (s s2 : AgentState)
    (h : ResearchWorkflow.evaluate env s = Except.ok s2) :
    s2.current_stage = WorkflowState.EVALUATING
    ∧ s2.metadata.refinement_count = s.metadata.refinement_count := by
  unfold ResearchWorkflow.evaluate at h
  cases hec : env.evaluate_research s.query s.data s.analysis s.report with
  | error e => rw [hec] at h; cases h
  | ok ev => rw [hec] at h; cases h; exact ⟨rfl, rfl⟩

/-- `_refine_or_complete` either loops back to `PLANNING` setting the
counter from 0 to 1, or completes leaving the counter unchanged. -/
theorem refine_or_complete_shape (s : AgentState) :
    ((ResearchWorkflow.refine_or_complete s).current_stage = WorkflowState.PLANNING
      ∧ s.metadata.refinement_count.getD 0 = 0
      ∧ (ResearchWorkflow.refine_or_complete s).metadata.refinement_count = some 1)
    ∨ ((ResearchWorkflow.refine_or_complete s).current_stage = WorkflowState.COMPLETE
      ∧ (ResearchWorkflow.refine_or_complete s).metadata.refinement_count
          = s.metadata.refinement_count) := by
  by_cases hb : pyScoreBelow s.quality_score (7/10) = true
  · by_cases hrc : s.metadata.refinement_count.getD 0 < 1
    · left
      have h0 : s.metadata.refinement_count.getD 0 = 0 := by omega
      simp [ResearchWorkflow.refine_or_complete, hb, hrc, h0]
    · right
      simp [ResearchWorkflow.refine_or_complete, hb, hrc]
  · right
    simp [ResearchWorkflow.refine_or_complete, hb]

/-- Every fired transition strictly decreases the rank and never produces
the `INIT`, `REFINING` or `FAILED` stage. -/
theorem transition_next_progress (env : WorkflowEnv) (s s2 : AgentState)
    (h : ResearchWorkflow.transition env s = StepResult.next s2) :
    s2.rank < s.rank
    ∧ s2.current_stage ≠ WorkflowState.INIT
    ∧ s2.current_stage ≠ WorkflowState.REFINING
    ∧ s2.current_stage ≠ WorkflowState.FAILED := by
  have hm : s.rcCap ≤ 1 := Nat.min_le_right _ _
  cases hs : s.current_stage with
  | INIT =>
    simp only [ResearchWorkflow.transition, hs, StepResult.next.injEq] at h
    subst h
    have hst : (ResearchWorkflow.plan s).current_stage = WorkflowState.PLANNING := rfl
    refine ⟨?_, by simp [hst], by simp [hst], by simp [hst]⟩
    have hrc : (ResearchWorkflow.plan s).metadata.refinement_count
        = s.metadata.refinement_count := rfl
    simp only [AgentState.rank, AgentState.rcCap, hst, hs, hrc]
    omega
  | PLANNING =>
    simp only [ResearchWorkflow.transition, hs] at h
    cases hcd : ResearchWorkflow.collect_data env s with
    | error e => rw [hcd] at h; cases h
    | ok s2' =>
      rw [hcd] at h
      injection h with h'
      subst h'
      obtain ⟨hst, hrc⟩ := collect_data_ok_shape env s s2' hcd
      refine ⟨?_, by simp [hst], by simp [hst], by simp [hst]⟩
      simp only [AgentState.rank, AgentState.rcCap, hst, hs, hrc]
      omega
  | COLLECTING =>
    simp only [ResearchWorkflow.transition, hs] at h
    cases hcd : ResearchWorkflow.analyze env s with
    | error e => rw [hcd] at h; cases h
    | ok s2' =>
      rw [hcd] at h
      injection h with h'
      subst h'
      obtain ⟨hst, hrc⟩ := analyze_ok_shape env s s2' hcd
      refine ⟨?_, by simp [hst], by simp [hst], by simp [hst]⟩
      simp only [AgentState.rank, AgentState.rcCap, hst, hs, hrc]
      omega
  | ANALYZING =>
    simp only [ResearchWorkflow.transition, hs] at h
    cases hcd : ResearchWorkflow.synthesize env s with
    | error e => rw [hcd] at h; cases h
    | ok s2' =>
      rw [hcd] at h
      injection h with h'
      subst h'
      obtain ⟨hst, hrc⟩ := synthesize_ok_shape env s s2' hcd
      refine ⟨?_, by simp [hst], by simp [hst], by simp [hst]⟩
      simp only [AgentState.rank, AgentState.rcCap, hst, hs, hrc]
      omega
  | SYNTHESIZING =>
    simp only [ResearchWorkflow.transition, hs] at h
    cases hcd : ResearchWorkflow.evaluate env s with
    | error e => rw [hcd] at h; cases h
    | ok s2' =>
      rw [hcd] at h
      injection h with h'
      subst h'
      obtain ⟨hst, hrc⟩ := evaluate_ok_shape env s s2' hcd
      refine ⟨?_, by simp [hst], by simp [hst], by simp [hst]⟩
      simp only [AgentState.rank, AgentState.rcCap, hst, hs, hrc]
      omega
  | EVALUATING =>
    simp only [ResearchWorkflow.transition, hs, StepResult.next.injEq] at h
    subst h
    rcases refine_or_complete_shape s with ⟨hst, h0, hrc⟩ | ⟨hst, hrc⟩
    · refine ⟨?_, by simp [hst], by simp [hst], by simp [hst]⟩
      simp only [AgentState.rank, AgentState.rcCap, hst, hs, hrc, h0, Option.getD_some]
      omega
    · refine ⟨?_, by simp [hst], by simp [hst], by simp [hst]⟩
      simp only [AgentState.rank, AgentState.rcCap, hst, hs, hrc]
      omega
  | REFINING => simp only [ResearchWorkflow.transition, hs] at h; cases h
  | COMPLETE => simp only [ResearchWorkflow.transition, hs] at h; cases h
  | FAILED => simp only [ResearchWorkflow.transition, hs] at h; cases h

/-- Every non-terminal stage other than `REFINING` has a registered
transition function. -/
theorem transition_ne_noFunc (env : WorkflowEnv) (s : AgentState)
    (h1 : s.current_stage ≠ WorkflowState.COMPLETE)
    (h2 : s.current_stage ≠ WorkflowState.FAILED)
    (h3 : s.current_stage ≠ WorkflowState.REFINING) :
    ResearchWorkflow.transition env s ≠ StepResult.noFunc := by
  intro hno
  cases hs : s.current_stage with
  | INIT => simp [ResearchWorkflow.transition, hs] at hno
  | PLANNING =>
    simp only [ResearchWorkflow.transition, hs] at hno
    cases hcd : ResearchWorkflow.collect_data env s <;> rw [hcd] at hno <;> cases hno
  | COLLECTING =>
    simp only [ResearchWorkflow.transition, hs] at hno
    cases hcd : ResearchWorkflow.analyze env s <;> rw [hcd] at hno <;> cases hno
  | ANALYZING =>
    simp only [ResearchWorkflow.transition, hs] at hno
    cases hcd : ResearchWorkflow.synthesize env s <;> rw [hcd] at hno <;> cases hno
  | SYNTHESIZING =>
    simp only [ResearchWorkflow.transition, hs] at hno
    cases hcd : ResearchWorkflow.evaluate env s <;> rw [hcd] at hno <;> cases hno
  | EVALUATING => simp [ResearchWorkflow.transition, hs] at hno
  | REFINING => exact h3 hs
  | COMPLETE => exact h1 hs
  | FAILED => exact h2 hs

/-- A state of rank 0 that is not in the unreachable `REFINING` stage is
terminal. -/
theorem rank_zero_terminal (s : AgentState)
    (hr : s.current_stage ≠ WorkflowState.REFINING) (h : s.rank = 0) :
    s.current_stage = WorkflowState.COMPLETE ∨ s.current_stage = WorkflowState.FAILED := by
  have hm : s.rcCap ≤ 1 := Nat.min_le_right _ _
  cases hs : s.current_stage with
  | INIT => simp [AgentState.rank, hs] at h
  | PLANNING => simp only [AgentState.rank, hs] at h; omega
  | COLLECTING => simp only [AgentState.rank, hs] at h; omega
  | ANALYZING => simp only [AgentState.rank, hs] at h; omega
  | SYNTHESIZING => simp only [AgentState.rank, hs] at h; omega
  | EVALUATING => simp only [AgentState.rank, hs] at h; omega
  | REFINING => exact absurd hs hr
  | COMPLETE => exact Or.inl rfl
  | FAILED => exact Or.inr rfl

/-- One-step unfolding of the engine loop. -/
theorem run_succ (env : WorkflowEnv) (fuel : Nat) (s : AgentState)
    (cps : List AgentState) (tr : List WorkflowState) :
    ResearchWorkflow.run env (fuel + 1) s cps tr =
      if s.current_stage = WorkflowState.COMPLETE
          ∨ s.current_stage = WorkflowState.FAILED then
        ⟨s, cps, tr⟩
      else
        match ResearchWorkflow.transition env s with
        | StepResult.noFunc => ⟨s, cps, tr⟩
        | StepResult.raised e =>
          ⟨{ s with errors := s.errors ++ [e], current_stage := WorkflowState.FAILED },
            cps, tr ++ [s.current_stage]⟩
        | StepResult.next s2 =>
          match env.save_checkpoint s2 with
          | .error e =>
            ⟨{ s2 with errors := s2.errors ++ [e], current_stage := WorkflowState.FAILED },
              cps, tr ++ [s.current_stage]⟩
          | .ok _ =>
            ResearchWorkflow.run env fuel s2 (cps ++ [s2]) (tr ++ [s.current_stage]) := rfl

/-- The loop returns a terminal state unchanged, whatever the fuel. -/
theorem run_terminal (env : WorkflowEnv) (fuel : Nat) (s : AgentState)
    (cps : List AgentState) (tr : List WorkflowState)
    (h : s.current_stage = WorkflowState.COMPLETE
      ∨ s.current_stage = WorkflowState.FAILED) :
    ResearchWorkflow.run env fuel s cps tr = ⟨s, cps, tr⟩ := by
  cases fuel with
  | zero => rfl
  | succ n => rw [run_succ, if_pos h]

/-- With fuel at least the rank of the start state, the loop ends in a
terminal stage. -/
theorem run_reaches_terminal (env : WorkflowEnv) :
    ∀ (fuel : Nat) (s : AgentState) (cps : List AgentState) (tr : List WorkflowState),
      s.current_stage ≠ WorkflowState.REFINING → s.rank ≤ fuel →
      (ResearchWorkflow.run env fuel s cps tr).final.current_stage = WorkflowState.COMPLETE
      ∨ (ResearchWorkflow.run env fuel s cps tr).final.current_stage
          = WorkflowState.FAILED := by
  intro fuel
  induction fuel with
  | zero =>
    intro s cps tr hr hle
    exact rank_zero_terminal s hr (Nat.le_zero.mp hle)
  | succ n ih =>
    intro s cps tr hr hle
    by_cases hterm : s.current_stage = WorkflowState.COMPLETE
        ∨ s.current_stage = WorkflowState.FAILED
    · rw [run_terminal env _ s cps tr hterm]
      exact hterm
    · rw [run_succ, if_neg hterm]
      push_neg at hterm
      obtain ⟨h1, h2⟩ := hterm
      cases htr : ResearchWorkflow.transition env s with
      | noFunc => exact absurd htr (transition_ne_noFunc env s h1 h2 hr)
      | raised e => exact Or.inr rfl
      | next s2 =>
        obtain ⟨hrank, _, hnr, _⟩ := transition_next_progress env s s2 htr
        dsimp only
        cases hsv : env.save_checkpoint s2 with
        | error e => exact Or.inr rfl
        | ok u =>
          exact ih s2 (cps ++ [s2]) (tr ++ [s.current_stage]) hnr
            (by simp only [AgentState.rank] at *; omega)

/-- Once a fuel value suffices to reach a terminal stage, adding fuel does
not change the result: the bounded run coincides with the unbounded Python
loop. -/
theorem run_stable (env : WorkflowEnv) :
    ∀ (fuel : Nat) (s : AgentState) (cps : List AgentState) (tr : List WorkflowState)
      (extra : Nat),
      ((ResearchWorkflow.run env fuel s cps tr).final.current_stage = WorkflowState.COMPLETE
        ∨ (ResearchWorkflow.run env fuel s cps tr).final.current_stage
            = WorkflowState.FAILED) →
      ResearchWorkflow.run env (fuel + extra) s cps tr
        = ResearchWorkflow.run env fuel s cps tr := by
  intro fuel
  induction fuel with
  | zero =>
    intro s cps tr extra hterm
    rw [Nat.zero_add]
    exact run_terminal env extra s cps tr hterm
  | succ n ih =>
    intro s cps tr extra hterm
    by_cases ht : s.current_stage = WorkflowState.COMPLETE
        ∨ s.current_stage = WorkflowState.FAILED
    · rw [run_terminal env _ s cps tr ht, run_terminal env _ s cps tr ht]
    · have hshift : n + 1 + extra = (n + extra) + 1 := by omega
      rw [hshift, run_succ, run_succ, if_neg ht, if_neg ht]
      rw [run_succ, if_neg ht] at hterm
      cases htr : ResearchWorkflow.transition env s with
      | noFunc => rfl
      | raised e => rfl
      | next s2 =>
        rw [htr] at hterm
        dsimp only
        dsimp only at hterm
        cases hsv : env.save_checkpoint s2 with
        | error e => rfl
        | ok u =>
          rw [hsv] at hterm
          dsimp only at hterm
          exact ih s2 (cps ++ [s2]) (tr ++ [s.current_stage]) extra hterm

/-- Each loop iteration appends at most one entry to the trace, so the
trace length is bounded by the fuel. -/
theorem run_trace_length (env : WorkflowEnv) :
    ∀ (fuel : Nat) (s : AgentState) (cps : List AgentState) (tr : List WorkflowState),
      (ResearchWorkflow.run env fuel s cps tr).trace.length ≤ tr.length + fuel := by
  intro fuel
  induction fuel with
  | zero => intro s cps tr; simp [ResearchWorkflow.run]
  | succ n ih =>
    intro s cps tr
    by_cases ht : s.current_stage = WorkflowState.COMPLETE
        ∨ s.current_stage = WorkflowState.FAILED
    · rw [run_terminal env _ s cps tr ht]
      simp
    · rw [run_succ, if_neg ht]
      cases htr : ResearchWorkflow.transition env s with
      | noFunc => simp
      | raised e => simp
      | next s2 =>
        dsimp only
        cases hsv : env.save_checkpoint s2 with
        | error e => simp
        | ok u =>
          have := ih s2 (cps ++ [s2]) (tr ++ [s.current_stage])
          simp only [List.length_append, List.length_cons, List.length_nil] at this ⊢
          omega

/-- Checkpoints written by the loop are snapshots of post-transition
states, which are never in the `FAILED` stage. -/
theorem run_checkpoints_stage (env : WorkflowEnv) :
    ∀ (fuel : Nat) (s : AgentState) (cps : List AgentState) (tr : List WorkflowState),
      (∀ st ∈ cps, st.current_stage ≠ WorkflowState.FAILED) →
      ∀ st ∈ (ResearchWorkflow.run env fuel s cps tr).checkpoints,
        st.current_stage ≠ WorkflowState.FAILED := by
  intro fuel
  induction fuel with
  | zero => intro s cps tr hcps; exact hcps
  | succ n ih =>
    intro s cps tr hcps
    by_cases ht : s.current_stage = WorkflowState.COMPLETE
        ∨ s.current_stage = WorkflowState.FAILED
    · rw [run_terminal env _ s cps tr ht]
      exact hcps
    · rw [run_succ, if_neg ht]
      cases htr : ResearchWorkflow.transition env s with
      | noFunc => exact hcps
      | raised e => exact hcps
      | next s2 =>
        obtain ⟨_, _, _, hnf⟩ := transition_next_progress env s s2 htr
        dsimp only
        cases hsv : env.save_checkpoint s2 with
        | error e => exact hcps
        | ok u =>
          refine ih s2 (cps ++ [s2]) (tr ++ [s.current_stage]) ?_
          intro st hst
          rcases List.mem_append.mp hst with hmem | hmem
          · exact hcps st hmem
          · rw [List.mem_singleton] at hmem
            subst hmem
            exact hnf

/-- Once the stage has left `INIT`, no further fired transition comes from
`INIT`. -/
theorem run_trace_count_init (env : WorkflowEnv) :
    ∀ (fuel : Nat) (s : AgentState) (cps : List AgentState) (tr : List WorkflowState),
      s.current_stage ≠ WorkflowState.INIT →
      (ResearchWorkflow.run env fuel s cps tr).trace.count WorkflowState.INIT
        = tr.count WorkflowState.INIT := by
  intro fuel
  induction fuel with
  | zero => intro s cps tr hni; rfl
  | succ n ih =>
    intro s cps tr hni
    by_cases ht : s.current_stage = WorkflowState.COMPLETE
        ∨ s.current_stage = WorkflowState.FAILED
    · rw [run_terminal env _ s cps tr ht]
    · have hone : (tr ++ [s.current_stage]).count WorkflowState.INIT
          = tr.count WorkflowState.INIT := by
        rw [List.count_append]
        have : [s.current_stage].count WorkflowState.INIT = 0 := by
          rw [List.count_eq_zero]
          intro hmem
          rw [List.mem_singleton] at hmem
          exact hni hmem.symm
        omega
      rw [run_succ, if_neg ht]
      cases htr : ResearchWorkflow.transition env s with
      | noFunc => rfl
      | raised e => exact hone
      | next s2 =>
        obtain ⟨_, hni2, _, _⟩ := transition_next_progress env s s2 htr
        dsimp only
        cases hsv : env.save_checkpoint s2 with
        | error e => exact hone
        | ok u =>
          rw [ih s2 (cps ++ [s2]) (tr ++ [s.current_stage]) hni2]
          exact hone

/-! ## C6 — termination -/

/-- C6: for every environment, query and config, the workflow reaches a
terminal stage (`complete` or `failed`) within `2 × (number of stages)`
transition steps: the bounded run ends terminal, fires at most
`2 × num_stages` transitions, and giving the loop any additional fuel
changes nothing — it never loops forever. -/
theorem C6_workflow_terminates (env : WorkflowEnv) (query : String)
    (config : WorkflowConfig) :
    ((ResearchWorkflow.execute env query config).final.current_stage = WorkflowState.COMPLETE
      ∨ (ResearchWorkflow.execute env query config).final.current_stage
          = WorkflowState.FAILED)
    ∧ (ResearchWorkflow.execute env query config).trace.length
        ≤ 2 * ResearchWorkflow.num_stages
    ∧ ∀ extra : Nat,
        ResearchWorkflow.run env (2 * ResearchWorkflow.num_stages + extra)
          (ResearchWorkflow.initial_state query config) [] []
          = ResearchWorkflow.execute env query config := by
  have hni : (ResearchWorkflow.initial_state query config).current_stage
      ≠ WorkflowState.REFINING := by
    intro h
    exact WorkflowState.noConfusion h
  have hrank : (ResearchWorkflow.initial_state query config).rank
      ≤ 2 * ResearchWorkflow.num_stages := by
    show (11 : Nat) ≤ 2 * ResearchWorkflow.num_stages
    decide
  have hterm := run_reaches_terminal env (2 * ResearchWorkflow.num_stages)
    (ResearchWorkflow.initial_state query config) [] [] hni hrank
  refine ⟨hterm, ?_, ?_⟩
  · simpa using run_trace_length env (2 * ResearchWorkflow.num_stages)
      (ResearchWorkflow.initial_state query config) [] []
  · intro extra
    exact run_stable env (2 * ResearchWorkflow.num_stages)
      (ResearchWorkflow.initial_state query config) [] [] extra hterm

/-! ## C10 — the planning body fires exactly once -/

/-- C10: in every run, exactly one transition fires from the `INIT` stage —
the one that executes `_plan` — because the dispatch table maps `PLANNING`
to `_collect_data`, so a refinement loop-back re-enters data collection,
never `_plan`. -/
theorem C10_plan_fires_once (env : WorkflowEnv) (query : String)
    (config : WorkflowConfig) :
    (ResearchWorkflow.execute env query config).trace.count WorkflowState.INIT = 1 := by
  unfold ResearchWorkflow.execute
  rw [show 2 * ResearchWorkflow.num_stages = 11 + 1 from rfl, run_succ]
  rw [if_neg (by rintro (h | h) <;> exact WorkflowState.noConfusion h)]
  rw [show ResearchWorkflow.transition env (ResearchWorkflow.initial_state query config)
      = StepResult.next (ResearchWorkflow.plan
          (ResearchWorkflow.initial_state query config)) from rfl]
  dsimp only
  cases hsv : env.save_checkpoint
      (ResearchWorkflow.plan (ResearchWorkflow.initial_state query config)) with
  | error e => rfl
  | ok u =>
    rw [run_trace_count_init env 11 _ _ _ (by intro h; exact WorkflowState.noConfusion h)]
    rfl

/-! ## C2 — engine-level exception handling -/

/-- C2 (amended): an exception raised inside a stage transition is caught
at the engine level — the message is appended to `state.errors`, the stage
is forced to `failed`, and the loop halts immediately — but no checkpoint
of the failed state is persisted: the checkpoint list is left exactly as it
was, and no checkpoint ever carries the `failed` stage (checkpoints are
written only after successful transitions). -/
theorem C2_error_handling_amended (env : WorkflowEnv) (fuel : Nat) (s : AgentState)
    (cps : List AgentState) (tr : List WorkflowState) (e : String)
    (h1 : s.current_stage ≠ WorkflowState.COMPLETE)
    (h2 : s.current_stage ≠ WorkflowState.FAILED)
    (h3 : ResearchWorkflow.transition env s = StepResult.raised e) :
    ResearchWorkflow.run env (fuel + 1) s cps tr
      = RunResult.mk
          { s with
            errors := s.errors ++ [e],
            current_stage := WorkflowState.FAILED }
          cps (tr ++ [s.current_stage])
    ∧ ∀ (q : String) (c : WorkflowConfig),
        ∀ st ∈ (ResearchWorkflow.execute env q c).checkpoints,
          st.current_stage ≠ WorkflowState.FAILED := by
  constructor
  · have hne : ¬ (s.current_stage = WorkflowState.COMPLETE
        ∨ s.current_stage = WorkflowState.FAILED) := by
      rintro (h | h)
      · exact h1 h
      · exact h2 h
    rw [run_succ, if_neg hne, h3]
  · intro q c
    exact run_checkpoints_stage env (2 * ResearchWorkflow.num_stages)
      (ResearchWorkflow.initial_state q c) [] []
      (by intro st hst; cases hst)

/-- The empty workflow config ({} in Python). -/
def workflowConfig0 : WorkflowConfig := ⟨none, none, none⟩

/-- An environment whose data-collection call raises `"boom"` and whose
checkpoint writes succeed. -/
def envBoom : WorkflowEnv :=
  { collect_data := fun _ _ _ => Except.error "boom",
    analyze_data := fun _ _ _ => Except.error "unused",
    generate_markdown_report := fun _ _ _ => Except.error "unused",
    evaluate_research := fun _ _ _ _ => Except.error "unused",
    save_checkpoint := fun _ => Except.ok () }

/-- The state after the planning transition of a run of `envBoom`. -/
def plannedState : AgentState :=
  ResearchWorkflow.plan (ResearchWorkflow.initial_state "q" workflowConfig0)

/-- C2 witness: the amended behaviour at a concrete raising transition. -/
theorem C2_error_handling_amended_witness :
    ResearchWorkflow.run envBoom (0 + 1) plannedState [] []
      = RunResult.mk
          { plannedState with
            errors := plannedState.errors ++ ["boom"],
            current_stage := WorkflowState.FAILED }
          [] ([] ++ [plannedState.current_stage]) :=
  (C2_error_handling_amended envBoom 0 plannedState [] [] "boom"
    (by intro h; exact WorkflowState.noConfusion h)
    (by intro h; exact WorkflowState.noConfusion h) rfl).1

/-- C2 counterexample: in a full run whose data-collection stage raises,
the engine catches the exception, records it and halts in `failed` — but
the only checkpoint on disk is the planning snapshot: no checkpoint of the
failed state (with populated errors) is ever persisted, refuting the
claim's checkpoint clause. -/
theorem C2_counterexample :
    (ResearchWorkflow.execute envBoom "q" workflowConfig0).final.current_stage
        = WorkflowState.FAILED
    ∧ (ResearchWorkflow.execute envBoom "q" workflowConfig0).final.errors = ["boom"]
    ∧ ((ResearchWorkflow.execute envBoom "q" workflowConfig0).checkpoints.map
        AgentState.current_stage) = [WorkflowState.PLANNING] := by
  exact ⟨rfl, rfl, rfl⟩
